import Mathlib

/-!
Verification of `KFeatureRoutingFunction::Compute`
(tensorflow/contrib/tensor_forest/hybrid/core/ops/k_feature_routing_function_op.cc).

The kernel computes, for each row of an input batch, the probability of reaching
each node of a complete binary tree stored as a flat array: the root gets
probability 1, and each internal node `j < max_nodes_ / 2` splits its probability
between children `2j+1` and `2j+2` according to a logistic split probability.

Floats are modelled as exact rationals; the two external numeric primitives
(`tensorforest::GetFeatureSet` and `tensorforest::LeftProbabilityK`, declared
outside this translation unit) are kept abstract, and the uninitialized contents
of the freshly allocated output buffer are an explicit parameter `init`.
-/

namespace KFeatureRouting

/-- Status reported through `OP_REQUIRES`: the only failure the kernel raises
itself is `InvalidArgument`. -/
inductive RoutingError where
  | invalidArgument (msg : String)
  deriving DecidableEq

/-- A tensor as the kernel reads it: the shape (the list of dimension sizes, as
returned by `dim_size`) together with its elements accessed two-dimensionally
as (row, column). -/
structure InputTensor where
  dims : List Nat
  data : Nat → Nat → ℚ

/-- The four op attributes read in the `KFeatureRoutingFunction` constructor.
They are `int32` in the source; `max_nodes` is modelled as `Nat` since a
negative capacity cannot produce a valid output allocation. -/
structure Config where
  layer_num : Int
  max_nodes : Nat
  num_features_per_node : Int
  random_seed : Int

/-- The two external numeric primitives the kernel calls, declared in
`utils.h` / `tree_utils.h` outside this translation unit, kept abstract:
`getFeatureSet layer_num index random_seed num_features num_features_per_node`
models `tensorforest::GetFeatureSet`, and `leftProbabilityK point feature_set
params bias num_features num_features_per_node` models
`tensorforest::LeftProbabilityK`. -/
structure Primitives where
  getFeatureSet : Int → Nat → Int → Nat → Int → List Int
  leftProbabilityK : (Nat → ℚ) → List Int → (Nat → ℚ) → ℚ → Nat → Int → ℚ

/-- Reads `num_data = input_data.shape().dim_size(0)`. -/
def numData (input : InputTensor) : Nat := input.dims.headD 0

/-- Reads `num_features = input_data.shape().dim_size(1)`. -/
def numFeatures (input : InputTensor) : Nat := input.dims.getD 1 0

/-- Modelled from the spec: `tensorforest::CheckTensorBounds` (tree_utils.h) is
outside this translation unit; per the spec, bounds checking of input buffers
is out of scope and assumed done by the caller, so the check passes. -/
def checkTensorBounds (_input : InputTensor) : Bool := true

/-- The feature subset obtained for row `i` while processing node `j`: the call
site (lines 139-141) passes `(layer_num_, i, random_seed_, num_features,
num_features_per_node_)` — the seed component is the row index `i`; the node
index `j` is not an argument. -/
def featureSetAt (P : Primitives) (cfg : Config) (nf : Nat) (i _j : Nat) : List Int :=
  P.getFeatureSet cfg.layer_num i cfg.random_seed nf cfg.num_features_per_node

/-- The value `left_prob` computed for row `i` at node `j` (lines 147-149):
`LeftProbabilityK(point, feature_set, tree_parameters_tensor.Slice(j, j+1),
tree_biases(j), num_features, num_features_per_node_)`, where
`point = input_data.Slice(i, i+1)` is row `i`. -/
def leftProbAt (P : Primitives) (cfg : Config) (input : InputTensor)
    (treeParams : Nat → Nat → ℚ) (treeBiases : Nat → ℚ) (i j : Nat) : ℚ :=
  P.leftProbabilityK (input.data i) (featureSetAt P cfg (numFeatures input) i j)
    (treeParams j) (treeBiases j) (numFeatures input) cfg.num_features_per_node

/-- One iteration of the inner loop (lines 138-152) on one row, as a state
transformer on the row's buffer: read `prob = out_probs(i, j)`, then write
`prob * left_prob` at `2j+1` and `prob * (1 - left_prob)` at `2j+2`. -/
def rowStep (lp : Nat → ℚ) (probs : Nat → ℚ) (j : Nat) : Nat → ℚ :=
  Function.update (Function.update probs (2 * j + 1) (probs j * lp j)) (2 * j + 2)
    (probs j * (1 - lp j))

/-- The state of one output row after the first `n` iterations of the inner
loop, starting from the uninitialized buffer contents `init` with the root slot
set to `1.0f` (line 136). -/
def rowProbsAux (lp : Nat → ℚ) (init : Nat → ℚ) : Nat → Nat → ℚ
  | 0 => Function.update init 0 1
  | n + 1 => rowStep lp (rowProbsAux lp init n) n

/-- One finished output row: the inner loop runs `j` upward from `0` to
`max_nodes_ / 2` exclusive. -/
def rowProbs (lp : Nat → ℚ) (init : Nat → ℚ) (maxNodes : Nat) : Nat → ℚ :=
  rowProbsAux lp init (maxNodes / 2)

/-- Entry `(i, k)` of the output buffer on the success path: the outer loop
body for row `i` touches only row `i` of the output and reads the input only
through `point = input_data.Slice(i, i+1)`. -/
def outEntry (P : Primitives) (cfg : Config) (input : InputTensor)
    (treeParams : Nat → Nat → ℚ) (treeBiases : Nat → ℚ) (init : Nat → Nat → ℚ)
    (i k : Nat) : ℚ :=
  rowProbs (leftProbAt P cfg input treeParams treeBiases i) (init i) cfg.max_nodes k

/-- The allocated output: shape `num_data × max_nodes` plus its contents. -/
structure OutputTensor where
  numRows : Nat
  numCols : Nat
  entry : Nat → Nat → ℚ

/-- The body of `KFeatureRoutingFunction::Compute`: when `dim_size(0) > 0` the input must be
two-dimensional (`OP_REQUIRES`, lines 107-111), then bounds are checked, then
the `num_data × max_nodes` output is allocated (with uninitialized contents
`init`) and filled row by row. -/
def compute (P : Primitives) (cfg : Config) (input : InputTensor)
    (treeParams : Nat → Nat → ℚ) (treeBiases : Nat → ℚ) (init : Nat → Nat → ℚ) :
    Except RoutingError OutputTensor :=
  if numData input > 0 ∧ input.dims.length ≠ 2 then
    Except.error (RoutingError.invalidArgument "input_data should be two-dimensional")
  else if checkTensorBounds input then
    Except.ok { numRows := numData input, numCols := cfg.max_nodes,
                entry := outEntry P cfg input treeParams treeBiases init }
  else
    Except.error (RoutingError.invalidArgument "tensor bounds exceeded")

/-! Concrete instances used to exercise the theorems. -/

/-- Concrete primitives: a selector returning `[0, 1]` and a split probability
constantly `1/2`. -/
def Pw : Primitives :=
  { getFeatureSet := fun _ _ _ _ _ => [0, 1],
    leftProbabilityK := fun _ _ _ _ _ _ => (1 : ℚ) / 2 }

/-- Concrete configuration: a depth-2 tree of capacity 3. -/
def cfgw : Config :=
  { layer_num := 0, max_nodes := 3, num_features_per_node := 2, random_seed := 7 }

/-- Concrete 1 × 2 input batch. -/
def inputw : InputTensor := { dims := [1, 2], data := fun _ _ => 0 }

/-- Concrete 5 × 2 input batch agreeing with `inputw` on row 0. -/
def inputB : InputTensor :=
  { dims := [5, 2], data := fun i _ => if i = 0 then 0 else 1 }

/-- Concrete three-dimensional input batch with 3 rows. -/
def input3d : InputTensor := { dims := [3, 2, 2], data := fun _ _ => 0 }

/-- Concrete three-dimensional input batch with 0 rows. -/
def input0r : InputTensor := { dims := [0, 5, 3], data := fun _ _ => 0 }

/-- Concrete empty two-dimensional input batch. -/
def inputE : InputTensor := { dims := [0, 4], data := fun _ _ => 0 }

/-- Concrete tree parameters. -/
def tpw : Nat → Nat → ℚ := fun _ _ => 0

/-- Concrete tree biases. -/
def tbw : Nat → ℚ := fun _ => 0

/-- Concrete uninitialized buffer contents. -/
def initw : Nat → Nat → ℚ := fun _ _ => 37

/-- Another concrete uninitialized buffer contents. -/
def initw2 : Nat → Nat → ℚ := fun _ _ => 99

/-- The output produced for `inputw`. -/
def outw : OutputTensor :=
  { numRows := numData inputw, numCols := cfgw.max_nodes,
    entry := outEntry Pw cfgw inputw tpw tbw initw }

/-- The output produced for `inputB`. -/
def outB : OutputTensor :=
  { numRows := numData inputB, numCols := cfgw.max_nodes,
    entry := outEntry Pw cfgw inputB tpw tbw initw }

/-! Helper lemmas about the inner loop. -/

theorem rowProbsAux_succ (lp init : Nat → ℚ) (n : Nat) :
    rowProbsAux lp init (n + 1) = rowStep lp (rowProbsAux lp init n) n := rfl

/-- Indices below `2m+1` are not touched by iterations `m, m+1, …`: iteration
`j` writes only `2j+1` and `2j+2`. -/
theorem rowProbsAux_stable (lp init : Nat → ℚ) (m k : Nat) (hk : k < 2 * m + 1) :
    ∀ n, m ≤ n → rowProbsAux lp init n k = rowProbsAux lp init m k := by
  intro n
  induction n with
  | zero => intro h; rw [Nat.le_zero.mp h]
  | succ n ih =>
    intro h
    rcases Nat.lt_or_ge m (n + 1) with h1 | h1
    · have hmn : m ≤ n := Nat.lt_succ_iff.mp h1
      rw [rowProbsAux_succ]
      unfold rowStep
      rw [Function.update_noteq (by omega), Function.update_noteq (by omega)]
      exact ih hmn
    · rw [le_antisymm h h1]

/-- Slot 0 holds `1` throughout: iterations write only indices `≥ 1`. -/
theorem rowProbsAux_root (lp init : Nat → ℚ) (n : Nat) : rowProbsAux lp init n 0 = 1 := by
  rw [rowProbsAux_stable lp init 0 0 (by omega) n (Nat.zero_le n)]
  simp [rowProbsAux]

/-- Final value of a left child written at iteration `j < n`. -/
theorem rowProbsAux_left (lp init : Nat → ℚ) (n j : Nat) (hj : j < n) :
    rowProbsAux lp init n (2 * j + 1) = rowProbsAux lp init n j * lp j := by
  have h1 : rowProbsAux lp init n (2 * j + 1) = rowProbsAux lp init (j + 1) (2 * j + 1) :=
    rowProbsAux_stable lp init (j + 1) (2 * j + 1) (by omega) n hj
  have h2 : rowProbsAux lp init n j = rowProbsAux lp init j j :=
    rowProbsAux_stable lp init j j (by omega) n (le_of_lt hj)
  rw [h1, h2, rowProbsAux_succ]
  unfold rowStep
  rw [Function.update_noteq (by omega), Function.update_same]

/-- Final value of a right child written at iteration `j < n`. -/
theorem rowProbsAux_right (lp init : Nat → ℚ) (n j : Nat) (hj : j < n) :
    rowProbsAux lp init n (2 * j + 2) = rowProbsAux lp init n j * (1 - lp j) := by
  have h1 : rowProbsAux lp init n (2 * j + 2) = rowProbsAux lp init (j + 1) (2 * j + 2) :=
    rowProbsAux_stable lp init (j + 1) (2 * j + 2) (by omega) n hj
  have h2 : rowProbsAux lp init n j = rowProbsAux lp init j j :=
    rowProbsAux_stable lp init j j (by omega) n (le_of_lt hj)
  rw [h1, rowProbsAux_succ]
  unfold rowStep
  rw [Function.update_same, ← h2]

/-- Inversion of the success path: a returned output is exactly the
`num_data × max_nodes` buffer filled by `outEntry`. -/
theorem compute_ok_eq (P : Primitives) (cfg : Config) (input : InputTensor)
    (tp : Nat → Nat → ℚ) (tb : Nat → ℚ) (init : Nat → Nat → ℚ) (out : OutputTensor)
    (h : compute P cfg input tp tb init = Except.ok out) :
    out = { numRows := numData input, numCols := cfg.max_nodes,
            entry := outEntry P cfg input tp tb init } := by
  unfold compute at h
  by_cases hc : numData input > 0 ∧ input.dims.length ≠ 2
  · rw [if_pos hc] at h
    exact Except.noConfusion h
  · rw [if_neg hc, if_pos (show checkTensorBounds input = true from rfl)] at h
    injection h with h2
    exact h2.symm

/-- Every slot `k < 2n+1` of a finished row is fully determined by the split
probabilities: its value does not depend on the uninitialized contents. -/
theorem rowProbsAux_indep (lp : Nat → ℚ) (n : Nat) :
    ∀ k, k < 2 * n + 1 → ∀ init init', rowProbsAux lp init n k = rowProbsAux lp init' n k := by
  intro k
  induction k using Nat.strong_induction_on with
  | _ k ih =>
    intro hk init init'
    cases k with
    | zero => rw [rowProbsAux_root, rowProbsAux_root]
    | succ k0 =>
      rcases Nat.even_or_odd (k0 + 1) with he | ho
      · obtain ⟨m, hm⟩ := he
        have hj : m - 1 < n := by omega
        have hkey : k0 + 1 = 2 * (m - 1) + 2 := by omega
        rw [hkey, rowProbsAux_right lp init n (m - 1) hj,
          rowProbsAux_right lp init' n (m - 1) hj,
          ih (m - 1) (by omega) (by omega) init init']
      · obtain ⟨m, hm⟩ := ho
        have hj : m < n := by omega
        rw [hm, rowProbsAux_left lp init n m hj, rowProbsAux_left lp init' n m hj,
          ih m (by omega) (by omega) init init']

/-- When every split probability lies in `[0, 1]`, every determined slot of a
finished row lies in `[0, 1]`. -/
theorem rowProbsAux_bounds (lp init : Nat → ℚ) (hlp : ∀ j, 0 ≤ lp j ∧ lp j ≤ 1) (n : Nat) :
    ∀ k, k < 2 * n + 1 → 0 ≤ rowProbsAux lp init n k ∧ rowProbsAux lp init n k ≤ 1 := by
  intro k
  induction k using Nat.strong_induction_on with
  | _ k ih =>
    intro hk
    cases k with
    | zero => rw [rowProbsAux_root]; exact ⟨zero_le_one, le_refl 1⟩
    | succ k0 =>
      rcases Nat.even_or_odd (k0 + 1) with he | ho
      · obtain ⟨m, hm⟩ := he
        have hj : m - 1 < n := by omega
        have hkey : k0 + 1 = 2 * (m - 1) + 2 := by omega
        have hp := ih (m - 1) (by omega) (by omega)
        have hf : 0 ≤ 1 - lp (m - 1) ∧ 1 - lp (m - 1) ≤ 1 := by
          have := hlp (m - 1); constructor <;> linarith [this.1, this.2]
        rw [hkey, rowProbsAux_right lp init n (m - 1) hj]
        exact ⟨mul_nonneg hp.1 hf.1, mul_le_one₀ hp.2 hf.1 hf.2⟩
      · obtain ⟨m, hm⟩ := ho
        have hj : m < n := by omega
        have hp := ih m (by omega) (by omega)
        have hf := hlp m
        rw [hm, rowProbsAux_left lp init n m hj]
        exact ⟨mul_nonneg hp.1 hf.1, mul_le_one₀ hp.2 hf.1 hf.2⟩

/-! Claims. -/

/-- Claim C1: for every row `i` of the batch and every internal node index
`j < max_nodes / 2`, the kernel writes `output[i, 2j+1] = output[i, j] * left_prob`
and `output[i, 2j+2] = output[i, j] * (1 - left_prob)`, where `left_prob` is the
split probability computed for row `i` at node `j`. (Each slot is written at
most once, so these equations hold of the final output.) -/
theorem claim1_child_writes (P : Primitives) (cfg : Config) (input : InputTensor)
    (tp : Nat → Nat → ℚ) (tb : Nat → ℚ) (init : Nat → Nat → ℚ) (out : OutputTensor)
    (h : compute P cfg input tp tb init = Except.ok out) (i j : Nat)
    (_hi : i < numData input) (hj : j < cfg.max_nodes / 2) :
    out.entry i (2 * j + 1) = out.entry i j * leftProbAt P cfg input tp tb i j ∧
    out.entry i (2 * j + 2) = out.entry i j * (1 - leftProbAt P cfg input tp tb i j) := by
  rw [compute_ok_eq P cfg input tp tb init out h]
  refine ⟨?_, ?_⟩
  · exact rowProbsAux_left (leftProbAt P cfg input tp tb i) (init i) (cfg.max_nodes / 2) j hj
  · exact rowProbsAux_right (leftProbAt P cfg input tp tb i) (init i) (cfg.max_nodes / 2) j hj

/-- Witness for claim C1 on the concrete capacity-3 configuration. -/
theorem claim1_child_writes_w :
    outw.entry 0 1 = outw.entry 0 0 * leftProbAt Pw cfgw inputw tpw tbw 0 0 ∧
    outw.entry 0 2 = outw.entry 0 0 * (1 - leftProbAt Pw cfgw inputw tpw tbw 0 0) :=
  claim1_child_writes Pw cfgw inputw tpw tbw initw outw rfl 0 0 (by decide) (by decide)

/-- Claim C2: for every row and every internal node `j` whose children `2j+1`
and `2j+2` are within capacity, `prob[2j+1] + prob[2j+2] = prob[j]` exactly
(probability mass conservation), in the exact-rational model of the arithmetic. -/
theorem claim2_mass_conservation (P : Primitives) (cfg : Config) (input : InputTensor)
    (tp : Nat → Nat → ℚ) (tb : Nat → ℚ) (init : Nat → Nat → ℚ) (out : OutputTensor)
    (h : compute P cfg input tp tb init = Except.ok out) (i j : Nat)
    (_hi : i < numData input) (hj : 2 * j + 2 < cfg.max_nodes) :
    out.entry i (2 * j + 1) + out.entry i (2 * j + 2) = out.entry i j := by
  have hj2 : j < cfg.max_nodes / 2 := by omega
  rw [compute_ok_eq P cfg input tp tb init out h]
  show rowProbsAux _ _ _ _ + rowProbsAux _ _ _ _ = rowProbsAux _ _ _ _
  rw [rowProbsAux_left (leftProbAt P cfg input tp tb i) (init i) (cfg.max_nodes / 2) j hj2,
    rowProbsAux_right (leftProbAt P cfg input tp tb i) (init i) (cfg.max_nodes / 2) j hj2]
  ring

/-- Witness for claim C2 on the concrete capacity-3 configuration. -/
theorem claim2_mass_conservation_w :
    outw.entry 0 1 + outw.entry 0 2 = outw.entry 0 0 :=
  claim2_mass_conservation Pw cfgw inputw tpw tbw initw outw rfl 0 0 (by decide) (by decide)

/-- Claim C3: for every row `i` of a non-empty batch, the returned output has
`output[i, 0] = 1`: the root slot is set to `1.0f` and never rewritten, since
every inner-loop write targets an index `≥ 1`. -/
theorem claim3_root_one (P : Primitives) (cfg : Config) (input : InputTensor)
    (tp : Nat → Nat → ℚ) (tb : Nat → ℚ) (init : Nat → Nat → ℚ) (out : OutputTensor)
    (h : compute P cfg input tp tb init = Except.ok out) (i : Nat)
    (_hi : i < numData input) :
    out.entry i 0 = 1 := by
  rw [compute_ok_eq P cfg input tp tb init out h]
  exact rowProbsAux_root (leftProbAt P cfg input tp tb i) (init i) (cfg.max_nodes / 2)

/-- Witness for claim C3 on the concrete capacity-3 configuration. -/
theorem claim3_root_one_w : outw.entry 0 0 = 1 :=
  claim3_root_one Pw cfgw inputw tpw tbw initw outw rfl 0 (by decide)

/-- Claim C4: the feature-subset selector is invoked with arguments
`(layer_num, i, random_seed, num_features, num_features_per_node)` — seeded by
the row index `i`, never by the node index — so the subset used by the kernel
at node `j` coincides with the one used at any other node `j2` of the same row. -/
theorem claim4_row_seeded_selector (P : Primitives) (cfg : Config)
    (input : InputTensor) (i j j2 : Nat) :
    featureSetAt P cfg (numFeatures input) i j =
      P.getFeatureSet cfg.layer_num i cfg.random_seed (numFeatures input)
        cfg.num_features_per_node ∧
    featureSetAt P cfg (numFeatures input) i j = featureSetAt P cfg (numFeatures input) i j2 :=
  ⟨rfl, rfl⟩

/-- Claim C5: when `max_nodes` is a complete-binary-tree capacity (odd), the
root slot and every write target `2j+1`, `2j+2` for `j < max_nodes / 2` lie in
`[0, max_nodes)`, and together these writes initialize all `max_nodes` columns
of each row: no entry of the returned row depends on the uninitialized buffer
contents. -/
theorem claim5_write_coverage (P : Primitives) (cfg : Config) (input : InputTensor)
    (tp : Nat → Nat → ℚ) (tb : Nat → ℚ) (hodd : cfg.max_nodes % 2 = 1) :
    (0 < cfg.max_nodes ∧
      ∀ j, j < cfg.max_nodes / 2 → 2 * j + 1 < cfg.max_nodes ∧ 2 * j + 2 < cfg.max_nodes) ∧
    (∀ init init' i k, k < cfg.max_nodes →
      outEntry P cfg input tp tb init i k = outEntry P cfg input tp tb init' i k) := by
  refine ⟨⟨by omega, fun j hj => by omega⟩, fun init init' i k hk => ?_⟩
  exact rowProbsAux_indep (leftProbAt P cfg input tp tb i) (cfg.max_nodes / 2) k
    (by omega) (init i) (init' i)

/-- Witness for claim C5: with capacity 3, index 2 is covered and its value is
the same over two different uninitialized buffers. -/
theorem claim5_write_coverage_w :
    ((0 < cfgw.max_nodes ∧
        ∀ j, j < cfgw.max_nodes / 2 → 2 * j + 1 < cfgw.max_nodes ∧ 2 * j + 2 < cfgw.max_nodes) ∧
      (∀ init init' i k, k < cfgw.max_nodes →
        outEntry Pw cfgw inputw tpw tbw init i k = outEntry Pw cfgw inputw tpw tbw init' i k)) ∧
    outEntry Pw cfgw inputw tpw tbw initw 0 2 = outEntry Pw cfgw inputw tpw tbw initw2 0 2 :=
  ⟨claim5_write_coverage Pw cfgw inputw tpw tbw rfl,
    (claim5_write_coverage Pw cfgw inputw tpw tbw rfl).2 initw initw2 0 2 (by decide)⟩

/-- Claim C6: under the precondition that the split-probability primitive
returns values in `[0, 1]` and that `max_nodes` has complete-binary-tree shape
(odd capacity), every output entry satisfies `0 ≤ output[i, k] ≤ 1`. -/
theorem claim6_unit_interval (P : Primitives) (cfg : Config) (input : InputTensor)
    (tp : Nat → Nat → ℚ) (tb : Nat → ℚ) (init : Nat → Nat → ℚ) (out : OutputTensor)
    (h : compute P cfg input tp tb init = Except.ok out)
    (hlp : ∀ i j, 0 ≤ leftProbAt P cfg input tp tb i j ∧ leftProbAt P cfg input tp tb i j ≤ 1)
    (hodd : cfg.max_nodes % 2 = 1) (i k : Nat) (_hi : i < numData input)
    (hk : k < cfg.max_nodes) :
    0 ≤ out.entry i k ∧ out.entry i k ≤ 1 := by
  rw [compute_ok_eq P cfg input tp tb init out h]
  exact rowProbsAux_bounds (leftProbAt P cfg input tp tb i) (init i) (hlp i)
    (cfg.max_nodes / 2) k (by omega)

/-- Witness for claim C6 with the constant-1/2 split primitive. -/
theorem claim6_unit_interval_w : 0 ≤ outw.entry 0 2 ∧ outw.entry 0 2 ≤ 1 :=
  claim6_unit_interval Pw cfgw inputw tpw tbw initw outw rfl
    (fun i j => ⟨by norm_num [leftProbAt, Pw], by norm_num [leftProbAt, Pw]⟩)
    rfl 0 2 (by decide) (by decide)

/-- Claim C7: a batch with `num_data > 0` that is not two-dimensional makes the
kernel report the `InvalidArgument` precondition failure and return before the
output buffer is allocated: no output is produced. -/
theorem claim7_rank_precondition (P : Primitives) (cfg : Config) (input : InputTensor)
    (tp : Nat → Nat → ℚ) (tb : Nat → ℚ) (init : Nat → Nat → ℚ)
    (hn : 0 < numData input) (hr : input.dims.length ≠ 2) :
    compute P cfg input tp tb init =
      Except.error (RoutingError.invalidArgument "input_data should be two-dimensional") := by
  unfold compute
  rw [if_pos ⟨hn, hr⟩]

/-- Witness for claim C7: a 3-row three-dimensional batch is rejected. -/
theorem claim7_rank_precondition_w :
    compute Pw cfgw input3d tpw tbw initw =
      Except.error (RoutingError.invalidArgument "input_data should be two-dimensional") :=
  claim7_rank_precondition Pw cfgw input3d tpw tbw initw (by decide) (by decide)

/-- Claim C8: an empty batch (`num_data = 0`) is not an error: the kernel
returns a well-formed `0 × max_nodes` output. -/
theorem claim8_empty_batch (P : Primitives) (cfg : Config) (input : InputTensor)
    (tp : Nat → Nat → ℚ) (tb : Nat → ℚ) (init : Nat → Nat → ℚ)
    (h0 : numData input = 0) :
    compute P cfg input tp tb init =
      Except.ok { numRows := 0, numCols := cfg.max_nodes,
                  entry := outEntry P cfg input tp tb init } := by
  unfold compute
  rw [if_neg (fun hc => absurd hc.1 (by omega)),
    if_pos (show checkTensorBounds input = true from rfl), h0]

/-- Witness for claim C8: the empty 0 × 4 batch yields a 0-row output. -/
theorem claim8_empty_batch_w :
    compute Pw cfgw inputE tpw tbw initw =
      Except.ok { numRows := 0, numCols := cfgw.max_nodes,
                  entry := outEntry Pw cfgw inputE tpw tbw initw } :=
  claim8_empty_batch Pw cfgw inputE tpw tbw initw rfl

/-- Claim C9: row `i` of the output depends only on row `i` of the input (and
the shared parameters, biases and configuration): two invocations whose batches
have the same number of feature columns and agree on row `i` produce identical
output rows `i`, whatever the other rows or the batch sizes are. -/
theorem claim9_row_isolation (P : Primitives) (cfg : Config)
    (input1 input2 : InputTensor) (tp : Nat → Nat → ℚ) (tb : Nat → ℚ)
    (init : Nat → Nat → ℚ) (out1 out2 : OutputTensor)
    (h1 : compute P cfg input1 tp tb init = Except.ok out1)
    (h2 : compute P cfg input2 tp tb init = Except.ok out2) (i : Nat)
    (hnf : numFeatures input1 = numFeatures input2)
    (hrow : ∀ c, input1.data i c = input2.data i c) (k : Nat) :
    out1.entry i k = out2.entry i k := by
  rw [compute_ok_eq P cfg input1 tp tb init out1 h1,
    compute_ok_eq P cfg input2 tp tb init out2 h2]
  have hlp : leftProbAt P cfg input1 tp tb i = leftProbAt P cfg input2 tp tb i := by
    funext j
    unfold leftProbAt featureSetAt
    rw [hnf, funext hrow]
  show outEntry P cfg input1 tp tb init i k = outEntry P cfg input2 tp tb init i k
  unfold outEntry
  rw [hlp]

/-- Witness for claim C9: the 1-row batch and the 5-row batch agree on row 0,
so their output rows 0 agree. -/
theorem claim9_row_isolation_w : outw.entry 0 1 = outB.entry 0 1 :=
  claim9_row_isolation Pw cfgw inputw inputB tpw tbw initw outw outB rfl rfl 0 rfl
    (fun _c => rfl) 1

/-- Claim C10: the two-dimensionality check is guarded by `dim_size(0) > 0`, so
a malformed (non-two-dimensional) batch with zero rows is never rejected: the
kernel succeeds on it. -/
theorem claim10_rank_check_skipped (P : Primitives) (cfg : Config) (input : InputTensor)
    (tp : Nat → Nat → ℚ) (tb : Nat → ℚ) (init : Nat → Nat → ℚ)
    (_hr : input.dims.length ≠ 2) (h0 : numData input = 0) :
    compute P cfg input tp tb init =
      Except.ok { numRows := 0, numCols := cfg.max_nodes,
                  entry := outEntry P cfg input tp tb init } := by
  unfold compute
  rw [if_neg (fun hc => absurd hc.1 (by omega)),
    if_pos (show checkTensorBounds input = true from rfl), h0]

/-- Witness for claim C10: a three-dimensional batch with zero rows succeeds. -/
theorem claim10_rank_check_skipped_w :
    compute Pw cfgw input0r tpw tbw initw =
      Except.ok { numRows := 0, numCols := cfgw.max_nodes,
                  entry := outEntry Pw cfgw input0r tpw tbw initw } :=
  claim10_rank_check_skipped Pw cfgw input0r tpw tbw initw (by decide) rfl

end KFeatureRouting
